import Mathlib

/-
Verification of the dejavu storage drivers (src/dejavu/database_sqla.py, the
SQLAlchemy ORM driver, and src/dejavu/database_sqlac.py, the SQLAlchemy Core
driver) against their natural-language specification.

Modelling conventions, fixed once for the whole development:

* Binary columns (the fingerprint hash, a fixed-width raw binary column) are
  represented by their canonical uppercase hexadecimal encoding as a `String`.
  Hex decoding (`hash.decode("hex")` in the ORM driver) and uppercasing
  (`hash.upper()` and the `HexedBinary` result processor in the Core driver)
  both identify hex strings that differ only in letter case, so both are
  modelled by `normHash`, which maps a hex string to its canonical form.
* Machine integers (song ids, offsets) are modelled as `Int`; the columns are
  plain signed SQL INTEGER columns and no operation here approaches overflow.
* Python dicts keyed by hashes are modelled as association lists with
  overwrite-on-duplicate-key semantics (`insertAssoc`); the iteration order
  chosen (first-insertion order) is one concrete order, all properties proved
  about it are order-insensitive.
* A fallible database call is `Except DbError α`; `DbError` distinguishes the
  error kinds the two drivers can actually produce.
-/

namespace Dejavu

/-- Error kinds observable from the two drivers: an integrity error raised by
the database for a declared constraint (uniqueness, foreign key, NOT NULL), a
Python `AttributeError` (attribute access on an object that lacks it, e.g. on
`None`), and a Python `TypeError` (e.g. `zip` applied to `None`). -/
inductive DbError where
  | constraintViolation
  | attributeError
  | typeError
  deriving DecidableEq, Repr

/-- A row of the `songs` relation: surrogate integer id, display name, the
`fingerprinted` flag (Boolean column, default false) and the 20-byte content
digest (represented by its hex encoding). -/
structure Song where
  id : Int
  name : String
  fingerprinted : Bool
  file_sha1 : String
  deriving DecidableEq, Repr

/-- A row of the `fingerprints` relation: the fixed-width binary hash column
(represented by its canonical uppercase hex encoding), the referencing song id
(foreign key with ON DELETE CASCADE) and the sample offset. -/
structure Fingerprint where
  hash : String
  song_id : Int
  song_offset : Int
  deriving DecidableEq, Repr

/-- The visible (committed) database state.  `next_id` models the
autoincrement counter behind the `songs` primary key. -/
structure DB where
  songs : List Song
  fingerprints : List Fingerprint
  next_id : Int
  deriving DecidableEq, Repr

/-- Canonical form of a hex-encoded binary value: uppercase every character.
This models both `hash.upper()` (Core driver) and the round trip
`hash.decode("hex")` / `encode("hex").upper()` (both drivers): two hex strings
denote the same binary column value exactly when their canonical forms agree.
Defined on the character list so that it evaluates by kernel reduction. -/
def normHash (h : String) : String :=
  ⟨h.data.map Char.toUpper⟩

/-- Lookup in a Python-dict model (association list): the value stored under
key `k`, if any. -/
def lookupOffset : List (String × Int) → String → Option Int
  | [], _ => none
  | (k, v) :: rest, h => if k = h then some v else lookupOffset rest h

/-- `mapper[k] = v` on a Python-dict model: overwrite the value if the key is
present, otherwise append a new entry. -/
def insertAssoc (m : List (String × Int)) (k : String) (v : Int) : List (String × Int) :=
  if m.any (fun p => decide (p.1 = k)) then
    m.map (fun p => if p.1 = k then (k, v) else p)
  else
    m ++ [(k, v)]

/-- The hash-to-query-offset dict built by `return_matches`:
`for hash, offset in hashes: mapper[normalized hash] = offset`.
If the same hash occurs several times, the later occurrence's offset wins. -/
def buildMapper (query : List (String × Int)) : List (String × Int) :=
  query.foldl (fun m p => insertAssoc m (normHash p.1) p.2) []

/-- The distinct keys of the mapper (`mapper.keys()`). -/
def mapperKeys (query : List (String × Int)) : List String :=
  (buildMapper query).map Prod.fst

/-- Consecutive groups of 999 elements, the last group possibly shorter: the
grouping produced by `izip_longest(*([iter(iterable)] * 999))` before its
fill values are filtered out again.  `fuel` bounds the recursion by the length
of the list (each step consumes at least one element, so the out-of-fuel
branch is never reached when `l.length ≤ fuel`); keeping the recursion
structural in `fuel` lets every application reduce inside the kernel. -/
def chunksGo : Nat → List α → List (List α)
  | 0, _ => []
  | _ + 1, [] => []
  | fuel + 1, x :: xs => ((x :: xs).take 999) :: chunksGo fuel ((x :: xs).drop 999)

/-- The 999-element grouping of a list (last group possibly shorter). -/
def chunks999 (l : List α) : List (List α) :=
  chunksGo l.length l

/-- Python's `filter(None, values)` applied to a group of keys: besides the
`izip_longest` fill value `None` (which `chunksGo` never materialises), it
also drops every falsy element, i.e. every empty string. -/
def pyTruthyFilter (c : List String) : List String :=
  c.filter (fun s => decide (s ≠ ""))

/-- `_grouper(iterable, 999)` of both drivers: groups of 999 consecutive keys
with `filter(None, ...)` applied to each group. -/
def grouper (l : List String) : List (List String) :=
  (chunks999 l).map pyTruthyFilter

/-- `return_matches(hashes)` of both drivers, operating on the `fingerprints`
relation: build the hash-to-offset dict, split its keys into groups of 999,
run one `IN`-lookup per group against the stored rows (comparison happens on
the binary column, i.e. on canonical forms), and yield
`(song_id, stored_offset - query_offset)` for every returned row, the query
offset being re-looked-up in the dict under the row's (canonical) hash. -/
def matchOffsets (db : List Fingerprint) (query : List (String × Int)) : List (Int × Int) :=
  ((grouper (mapperKeys query)).flatMap
      (fun split => db.filter (fun f => decide (normHash f.hash ∈ split)))).map
    (fun f => (f.song_id, f.song_offset - (lookupOffset (buildMapper query) (normHash f.hash)).getD 0))

/-- The specification-side reference behaviour of the match engine: a single
unchunked whole-set lookup over all distinct query hashes, with the same
offset-delta computation.  (This definition follows the spec's words, for the
refinement comparison; `matchOffsets` is the one translated from the code.) -/
def matchOffsetsUnchunked (db : List Fingerprint) (query : List (String × Int)) : List (Int × Int) :=
  (db.filter (fun f => decide (normHash f.hash ∈ mapperKeys query))).map
    (fun f => (f.song_id, f.song_offset - (lookupOffset (buildMapper query) (normHash f.hash)).getD 0))

/-!
State-changing operations.  Durability conventions, read off the two drivers:

* Core driver (`database_sqlac.py`): every statement is executed on a fresh
  `Engine.connect()` connection with no explicit transaction; SQLAlchemy's
  pre-2.0 connection autocommit makes each executed DML statement durable on
  its own.  Such a call is modelled as a direct transformation of the
  committed state.
* ORM driver (`database_sqla.py`): statements execute inside a session's
  transaction and become durable only at `session.commit()`;
  `session.close()` without a commit releases the connection and rolls the
  transaction back.  This is modelled by `SessionState` (committed state
  plus pending state) with `sessionClose` discarding the pending writes.
* Constraints attached to the tables are enforced at write time as a
  `.constraintViolation` error.  In the Core driver these are the
  `(hash, song_id, offset)` UNIQUE constraint, the `song_id` foreign key and
  the NOT NULL columns, all declared inside the `Table(...)` calls.  In the
  ORM driver the `UniqueConstraint`/`PrimaryKeyConstraint` expressions in
  the declarative class bodies are built from the classes' own `Column`
  objects; a constraint referring to not-yet-attached columns attaches
  itself to the table once those columns are attached (SQLAlchemy 1.0+
  behaviour, and required for the mapped `Fingerprint` class to have a
  primary key at all), so the ORM driver too enforces the
  `(hash, song_id, offset)` primary-key/uniqueness constraint, alongside the
  column-level foreign key on `fingerprints.song_id`.
-/

/-- Does every fingerprint row satisfy the foreign key into `songs`? -/
def fkHolds (db : DB) : Bool :=
  db.fingerprints.all (fun f => db.songs.any (fun s => decide (s.id = f.song_id)))

/-- One ORM session: the committed state it opened on, and the state its
transaction would publish. -/
structure SessionState where
  committed : DB
  pending : DB

/-- `session = self.Session()`. -/
def sessionOpen (db : DB) : SessionState :=
  ⟨db, db⟩

/-- `session.close()` with no preceding `session.commit()`: the connection is
returned to the pool and the open transaction is rolled back, so only the
state committed before the session survives. -/
def sessionClose (s : SessionState) : DB :=
  s.committed

/-- Pairwise distinctness of the stored `(hash, song_id, offset)` triples (a
`Fingerprint` row is exactly that triple): what the attached primary-key and
uniqueness constraints on the `fingerprints` table demand. -/
def triplesUnique : List Fingerprint → Bool
  | [] => true
  | f :: rest => !(rest.any (fun g => decide (g = f))) && triplesUnique rest

/-- `insert(hash, sid, offset)` of the ORM driver: add one Fingerprint object
and commit.  The class-body primary-key/uniqueness constraints on the triple
attach to the table through the class's columns, so committing a duplicate
triple fails with an integrity error (comparison on the binary column, i.e.
on canonical forms), as does violating the column-level foreign key. -/
def sqla_insert (db : DB) (hash : String) (sid : Int) (offset : Int) : Except DbError DB :=
  let fp : Fingerprint := ⟨normHash hash, sid, offset⟩
  if db.fingerprints.any (fun g => decide (g = fp)) then
    .error .constraintViolation
  else
    let pending : DB := ⟨db.songs, db.fingerprints ++ [fp], db.next_id⟩
    if fkHolds pending then .ok pending else .error .constraintViolation

/-- `insert_hashes(sid, hashes)` of the ORM driver: every pair is added to
the same session and one final `session.commit()` publishes the whole batch
in a single transaction; the flush enforces the attached uniqueness
constraint on the triple (against stored rows and within the batch) and the
foreign key, and any violation fails the commit, publishing nothing. -/
def sqla_insert_hashes (db : DB) (sid : Int) (pairs : List (String × Int)) : Except DbError DB :=
  let pending : DB :=
    ⟨db.songs, db.fingerprints ++ pairs.map (fun p => ⟨normHash p.1, sid, p.2⟩), db.next_id⟩
  if triplesUnique pending.fingerprints && fkHolds pending then
    .ok pending
  else .error .constraintViolation

/-- `insert_song(song_name, sha1_hash)` of the ORM driver: look the name up
first and return the existing row's id if found, otherwise insert a new
pending Song (autoincrement id, `fingerprinted` defaulting to false) and
commit. -/
def sqla_insert_song (db : DB) (song_name : String) (sha1_hash : String) : Int × DB :=
  match db.songs.find? (fun s => decide (s.name = song_name)) with
  | some s => (s.id, db)
  | none =>
    (db.next_id, ⟨db.songs ++ [⟨db.next_id, song_name, false, sha1_hash⟩],
      db.fingerprints, db.next_id + 1⟩)

/-- The effect of `UPDATE songs SET fingerprinted = true WHERE id = sid` on
the stored rows. -/
def flagUpdate (db : DB) (sid : Int) : DB :=
  ⟨db.songs.map (fun s => if s.id = sid then { s with fingerprinted := true } else s),
    db.fingerprints, db.next_id⟩

/-- `set_song_fingerprinted(sid)` of the ORM driver:
`session.query(Song).get(sid)` returns `None` when the id is absent, and the
following `song.fingerprinted = True` is then an attribute assignment on
`None`, raising `AttributeError`; otherwise the flag is set and committed. -/
def sqla_set_song_fingerprinted (db : DB) (sid : Int) : Except DbError DB :=
  match db.songs.find? (fun s => decide (s.id = sid)) with
  | some _ => .ok (flagUpdate db sid)
  | none => .error .attributeError

/-- `get_song_by_id(sid)` of the ORM driver: `query(Song).get(sid)` and
`_song_to_dict`, which maps a missing row to `None`. -/
def sqla_get_song_by_id (db : DB) (sid : Int) : Option Song :=
  db.songs.find? (fun s => decide (s.id = sid))

/-- The row-level effect of `DELETE FROM songs WHERE fingerprinted = false`:
the pending songs disappear and, through the declared ON DELETE CASCADE on
`fingerprints.song_id`, so does every fingerprint referencing a deleted
song. -/
def purgePending (db : DB) : DB :=
  ⟨db.songs.filter (fun s => s.fingerprinted),
    db.fingerprints.filter
      (fun f => !(db.songs.any (fun s => decide (s.id = f.song_id) && !s.fingerprinted))),
    db.next_id⟩

/-- `delete_unfingerprinted_songs()` of the ORM driver: the bulk DELETE is
executed on the session's transaction, but the method then calls
`session.expire_all(); session.close()` and never `session.commit()`, so the
deletion is rolled back. -/
def sqla_delete_unfingerprinted_songs (db : DB) : DB :=
  let session := sessionOpen db
  let session : SessionState := ⟨session.committed, purgePending session.pending⟩
  sessionClose session

/-- `setup()` of the ORM driver: `Base.metadata.create_all` creates missing
tables only (`checkfirst`), touching no rows, and then
`delete_unfingerprinted_songs()` runs. -/
def sqla_setup (db : DB) : DB :=
  sqla_delete_unfingerprinted_songs db

/-- `insert(hash, sid, offset)` of the Core driver: a single autocommitted
INSERT checked against the attached `(hash, song_id, offset)` UNIQUE
constraint (comparison on the binary column) and the foreign key. -/
def sqlac_insert (db : DB) (hash : String) (sid : Int) (offset : Int) : Except DbError DB :=
  let fp : Fingerprint := ⟨normHash hash, sid, offset⟩
  if db.fingerprints.any (fun g => decide (g = fp)) then
    .error .constraintViolation
  else
    let pending : DB := ⟨db.songs, db.fingerprints ++ [fp], db.next_id⟩
    if fkHolds pending then .ok pending else .error .constraintViolation

/-- `insert_song(song_name)` of the Core driver: the INSERT provides only the
`songname` column (`fingerprinted` has a client-side default of false); the
`file_sha1` column is declared `nullable=False` with no default and is not
provided, so the write violates the NOT NULL constraint.  No lookup of an
existing row with the same name happens at all. -/
def sqlac_insert_song (db : DB) (song_name : String) : Except DbError (Int × DB) :=
  let provided_file_sha1 : Option String := none
  match provided_file_sha1 with
  | none => .error .constraintViolation
  | some sha =>
    .ok (db.next_id, ⟨db.songs ++ [⟨db.next_id, song_name, false, sha⟩],
      db.fingerprints, db.next_id + 1⟩)

/-- `insert_hashes(sid, hashes)` of the Core driver: the very first statement
evaluates `self.fingerprints.__table__`, but `self.fingerprints` is a Core
`Table`, which has no `__table__` attribute (that attribute exists on
declarative classes), so every call raises `AttributeError` before any SQL is
issued.  (The row dicts are also built with the hash under the
`fingerprinted` field name instead of the hash field.) -/
def sqlac_insert_hashes (_db : DB) (_sid : Int) (_pairs : List (String × Int)) :
    Except DbError DB :=
  .error .attributeError

/-- `set_song_fingerprinted(sid)` of the Core driver: an autocommitted
`UPDATE ... WHERE id = sid`, which simply affects zero rows when the id is
absent. -/
def sqlac_set_song_fingerprinted (db : DB) (sid : Int) : Except DbError DB :=
  .ok (flagUpdate db sid)

/-- `get_song_by_id(sid)` of the Core driver: the row is fetched with
`r.fetchone()` and fed to `dict(zip(r.keys(), ...))`; when no row exists,
`fetchone()` returns `None` and `zip` raises `TypeError`. -/
def sqlac_get_song_by_id (db : DB) (sid : Int) : Except DbError Song :=
  match db.songs.find? (fun s => decide (s.id = sid)) with
  | some s => .ok s
  | none => .error .typeError

/-- `delete_unfingerprinted_songs()` of the Core driver: one autocommitted
DELETE of the pending songs, cascading to their fingerprints. -/
def sqlac_delete_unfingerprinted_songs (db : DB) : DB :=
  purgePending db

/-- `setup()` of the Core driver: `metadata.create_all()` creates missing
tables only and touches no rows. -/
def sqlac_setup (db : DB) : DB :=
  db

/-! Structural facts about the 999-element grouping. -/

theorem chunksGo_flatten : ∀ (fuel : Nat) (l : List α), l.length ≤ fuel →
    (chunksGo fuel l).flatten = l
  | 0, l, h => by
    have hl : l = [] := List.length_eq_zero.mp (Nat.le_zero.mp h)
    subst hl
    rfl
  | _ + 1, [], _ => rfl
  | fuel + 1, x :: xs, h => by
    have hx : xs.length + 1 ≤ fuel + 1 := by simpa using h
    have hdrop : ((x :: xs).drop 999).length ≤ fuel := by
      simp only [List.length_drop, List.length_cons]
      omega
    rw [chunksGo, List.flatten_cons,
      chunksGo_flatten fuel ((x :: xs).drop 999) hdrop,
      List.take_append_drop]

theorem chunksGo_length_le : ∀ (fuel : Nat) (l : List α) (c : List α),
    c ∈ chunksGo fuel l → c.length ≤ 999
  | 0, _, c, hc => by simp [chunksGo] at hc
  | _ + 1, [], c, hc => by simp [chunksGo] at hc
  | fuel + 1, x :: xs, c, hc => by
    rw [chunksGo] at hc
    rcases List.mem_cons.mp hc with h | h
    · subst h
      simp only [List.length_take, List.length_cons]
      omega
    · exact chunksGo_length_le fuel ((x :: xs).drop 999) c h

theorem chunksGo_dropLast : ∀ (fuel : Nat) (l : List α), l.length ≤ fuel →
    ∀ c ∈ (chunksGo fuel l).dropLast, c.length = 999
  | 0, l, h => by
    have hl : l = [] := List.length_eq_zero.mp (Nat.le_zero.mp h)
    subst hl
    simp [chunksGo]
  | _ + 1, [], _ => by simp [chunksGo]
  | fuel + 1, x :: xs, h => by
    have hx : xs.length + 1 ≤ fuel + 1 := by simpa using h
    have hdrop : ((x :: xs).drop 999).length ≤ fuel := by
      simp only [List.length_drop, List.length_cons]
      omega
    rw [chunksGo]
    rcases hrest : chunksGo fuel ((x :: xs).drop 999) with _ | ⟨c0, cs⟩
    · simp
    · have hne : (x :: xs).drop 999 ≠ [] := by
        intro hnil
        rw [hnil] at hrest
        cases fuel <;> simp [chunksGo] at hrest
      have hlen : 999 < (x :: xs).length := by
        rcases Nat.lt_or_ge 999 (x :: xs).length with hl | hl
        · exact hl
        · exact absurd (List.drop_eq_nil_iff.mpr hl) hne
      intro c hc
      rw [List.dropLast_cons₂] at hc
      rcases List.mem_cons.mp hc with hhead | htail
      · subst hhead
        simp only [List.length_take, List.length_cons]
        simp only [List.length_cons] at hlen
        omega
      · have hrec := chunksGo_dropLast fuel ((x :: xs).drop 999) hdrop
        rw [hrest] at hrec
        exact hrec c htail

theorem chunksGo_length : ∀ (fuel : Nat) (l : List α), l.length ≤ fuel →
    (chunksGo fuel l).length = (l.length + 998) / 999
  | 0, l, h => by
    have hl : l = [] := List.length_eq_zero.mp (Nat.le_zero.mp h)
    subst hl
    simp [chunksGo]
  | _ + 1, [], _ => by simp [chunksGo]
  | fuel + 1, x :: xs, h => by
    have hx : xs.length + 1 ≤ fuel + 1 := by simpa using h
    have hdrop : ((x :: xs).drop 999).length ≤ fuel := by
      simp only [List.length_drop, List.length_cons]
      omega
    rw [chunksGo, List.length_cons,
      chunksGo_length fuel ((x :: xs).drop 999) hdrop]
    simp only [List.length_drop, List.length_cons]
    omega

theorem chunks999_flatten (l : List α) : (chunks999 l).flatten = l :=
  chunksGo_flatten l.length l (Nat.le_refl _)

theorem chunks999_length_le (c : List α) (hc : c ∈ chunks999 l) : c.length ≤ 999 :=
  chunksGo_length_le l.length l c hc

theorem chunks999_dropLast (l : List α) : ∀ c ∈ (chunks999 l).dropLast, c.length = 999 :=
  chunksGo_dropLast l.length l (Nat.le_refl _)

theorem chunks999_length (l : List α) : (chunks999 l).length = (l.length + 998) / 999 :=
  chunksGo_length l.length l (Nat.le_refl _)

theorem mem_of_mem_chunks999 {l : List α} {c : List α} (hc : c ∈ chunks999 l)
    (ha : a ∈ c) : a ∈ l := by
  rw [← chunks999_flatten l]
  exact List.mem_flatten.mpr ⟨c, hc, ha⟩

theorem grouper_eq_chunks999 {l : List String} (h : ∀ k ∈ l, k ≠ "") :
    grouper l = chunks999 l := by
  unfold grouper
  rw [List.map_congr_left (g := id), List.map_id]
  intro c hc
  simp only [id]
  unfold pyTruthyFilter
  rw [List.filter_eq_self]
  intro a ha
  simpa using h a (mem_of_mem_chunks999 hc ha)

/-! Facts about the hash-to-offset dict model. -/

theorem keys_insertAssoc (m : List (String × Int)) (k : String) (v : Int) :
    (insertAssoc m k v).map Prod.fst =
      if k ∈ m.map Prod.fst then m.map Prod.fst else m.map Prod.fst ++ [k] := by
  unfold insertAssoc
  have hany : (m.any (fun p => decide (p.1 = k)) = true) ↔ k ∈ m.map Prod.fst := by
    simp [List.any_eq_true, List.mem_map]
  by_cases hmem : k ∈ m.map Prod.fst
  · rw [if_pos (hany.mpr hmem), if_pos hmem, List.map_map]
    refine List.map_congr_left ?_
    intro p _
    by_cases hpk : p.1 = k
    · simp [hpk]
    · simp [hpk]
  · rw [if_neg (fun hc => hmem (hany.mp hc)), if_neg hmem, List.map_append]
    simp

theorem nodup_keys_insertAssoc {m : List (String × Int)} {k : String} {v : Int}
    (h : (m.map Prod.fst).Nodup) : ((insertAssoc m k v).map Prod.fst).Nodup := by
  rw [keys_insertAssoc]
  by_cases hmem : k ∈ m.map Prod.fst
  · rwa [if_pos hmem]
  · rw [if_neg hmem]
    simp [List.nodup_append, h, hmem]

theorem nodup_keys_foldl : ∀ (q : List (String × Int)) (m : List (String × Int)),
    (m.map Prod.fst).Nodup →
    ((q.foldl (fun m p => insertAssoc m (normHash p.1) p.2) m).map Prod.fst).Nodup
  | [], _, h => h
  | _ :: ps, _, h => nodup_keys_foldl ps _ (nodup_keys_insertAssoc h)

theorem mapperKeys_nodup (query : List (String × Int)) : (mapperKeys query).Nodup :=
  nodup_keys_foldl query [] (by simp)

theorem lookupOffset_some_mem : ∀ {m : List (String × Int)} {k : String} {v : Int},
    lookupOffset m k = some v → k ∈ m.map Prod.fst
  | [], _, _, h => by simp [lookupOffset] at h
  | (k0, v0) :: rest, k, v, h => by
    rw [lookupOffset] at h
    by_cases hk : k0 = k
    · simp [hk]
    · rw [if_neg hk] at h
      simp only [List.map_cons, List.mem_cons]
      exact Or.inr (lookupOffset_some_mem h)

theorem mem_keys_of_mem_grouper {keys : List String} {split : List String} {k : String}
    (hs : split ∈ grouper keys) (hk : k ∈ split) : k ∈ keys := by
  unfold grouper at hs
  obtain ⟨c, hc, rfl⟩ := List.mem_map.mp hs
  exact mem_of_mem_chunks999 hc (List.mem_of_mem_filter hk)

theorem mem_grouper_of_mem_keys {keys : List String} {k : String}
    (hk : k ∈ keys) (hne : k ≠ "") : ∃ split ∈ grouper keys, k ∈ split := by
  rw [← chunks999_flatten keys] at hk
  obtain ⟨c, hc, hkc⟩ := List.mem_flatten.mp hk
  exact ⟨pyTruthyFilter c, List.mem_map_of_mem _ hc,
    List.mem_filter.mpr ⟨hkc, decide_eq_true hne⟩⟩

/-! Claim C1: offset-delta correctness of the match engine. -/

/-- C1 (counterexample to the claim as stated): the claim quantifies over
every query pair whose hash matches a stored fingerprint up to letter case,
but when the same hash occurs twice in the query, `return_matches` keeps only
the last pair's offset (dict overwrite), so the pair `(7, 100 - 40) = (7, 60)`
demanded for the earlier occurrence `(a1b2, 40)` is not yielded: only
`(7, 50)` is. -/
theorem C1_counterexample :
    matchOffsets [⟨"A1B2", 7, 100⟩] [("a1b2", 40), ("a1b2", 50)] = [(7, 50)]
    ∧ ((7 : Int), (60 : Int)) ∉ matchOffsets [⟨"A1B2", 7, 100⟩] [("a1b2", 40), ("a1b2", 50)] := by
  constructor
  · decide
  · decide

/-- C1 (amended): for every stored fingerprint and every hash key whose
query offset the mapper retains (i.e. the offset of the LAST query pair with
that hash, hashes compared up to hexadecimal letter case, the key being
nonempty), `return_matches` yields `(song_id, stored_offset - query_offset)`. -/
theorem C1_offset_delta (db : List Fingerprint) (query : List (String × Int))
    (f : Fingerprint) (oq : Int) (hf : f ∈ db) (hne : normHash f.hash ≠ "")
    (hlk : lookupOffset (buildMapper query) (normHash f.hash) = some oq) :
    (f.song_id, f.song_offset - oq) ∈ matchOffsets db query := by
  have hkey : normHash f.hash ∈ mapperKeys query := lookupOffset_some_mem hlk
  obtain ⟨split, hsplit, hksplit⟩ := mem_grouper_of_mem_keys hkey hne
  unfold matchOffsets
  refine List.mem_map.mpr ⟨f, ?_, ?_⟩
  · exact List.mem_flatMap.mpr
      ⟨split, hsplit, List.mem_filter.mpr ⟨hf, decide_eq_true hksplit⟩⟩
  · rw [hlk]
    rfl

/-- C1 (witness): the spec's concrete instance: stored fingerprint
(hash=A1B2, songId=7, offset=100) and query pair (hash=a1b2, offset=40)
yield (7, 60). -/
theorem C1_witness :
    (⟨"A1B2", 7, 100⟩ : Fingerprint) ∈ ([⟨"A1B2", 7, 100⟩] : List Fingerprint)
    ∧ normHash "A1B2" ≠ ""
    ∧ lookupOffset (buildMapper [("a1b2", 40)]) (normHash "A1B2") = some 40
    ∧ ((7 : Int), (100 : Int) - 40) ∈ matchOffsets [⟨"A1B2", 7, 100⟩] [("a1b2", 40)] :=
  ⟨by decide, by decide, by decide,
    C1_offset_delta [⟨"A1B2", 7, 100⟩] [("a1b2", 40)] ⟨"A1B2", 7, 100⟩ 40
      (by decide) (by decide) (by decide)⟩

/-! Claim C2: chunking correctness of the match engine. -/

/-- C2 (counterexample to the claim as stated): `_grouper` applies Python's
`filter(None, ...)` to each group, which drops not only the `izip_longest`
fill values but every falsy key, i.e. the empty-string hash (the hash of the
empty binary value).  A query set consisting of the empty hash is therefore
dropped from the chunk ("chunking must never drop a key" fails), and the
chunked result differs from the unchunked whole-set lookup. -/
theorem C2_counterexample :
    mapperKeys [(("" : String), (40 : Int))] = [""]
    ∧ (grouper (mapperKeys [(("" : String), (40 : Int))])).flatten = []
    ∧ matchOffsets [⟨"", 7, 100⟩] [("", 40)] = []
    ∧ matchOffsetsUnchunked [⟨"", 7, 100⟩] [("", 40)] = [(7, 60)] := by
  refine ⟨by decide, by decide, by decide, by decide⟩

/-- C2 (amended): provided every distinct query hash is nonempty (as the
fixed-width digest format guarantees), the match engine's chunking is
correct: the distinct keys are partitioned into chunks of at most 999 with
only the final chunk shorter, no key is dropped or duplicated, the number of
batched lookups issued (one per chunk) is exactly ceil(N / 999), and the
chunked result has the same members as the unchunked whole-set lookup. -/
theorem C2_chunking (db : List Fingerprint) (query : List (String × Int))
    (hne : ∀ k ∈ mapperKeys query, k ≠ "") :
    (mapperKeys query).Nodup
    ∧ (∀ c ∈ grouper (mapperKeys query), c.length ≤ 999)
    ∧ (∀ c ∈ (grouper (mapperKeys query)).dropLast, c.length = 999)
    ∧ (grouper (mapperKeys query)).flatten = mapperKeys query
    ∧ (grouper (mapperKeys query)).length = ((mapperKeys query).length + 998) / 999
    ∧ (∀ x, x ∈ matchOffsets db query ↔ x ∈ matchOffsetsUnchunked db query) := by
  refine ⟨mapperKeys_nodup query, ?_, ?_, ?_, ?_, ?_⟩
  · intro c hc
    obtain ⟨c0, hc0, rfl⟩ := List.mem_map.mp hc
    exact Nat.le_trans (List.length_filter_le _ _) (chunks999_length_le c0 hc0)
  · rw [grouper_eq_chunks999 hne]
    exact chunks999_dropLast _
  · rw [grouper_eq_chunks999 hne]
    exact chunks999_flatten _
  · unfold grouper
    rw [List.length_map]
    exact chunks999_length _
  · intro x
    unfold matchOffsets matchOffsetsUnchunked
    simp only [List.mem_map, List.mem_flatMap, List.mem_filter, decide_eq_true_eq]
    constructor
    · rintro ⟨f, ⟨split, hsplit, hfdb, hfk⟩, rfl⟩
      exact ⟨f, ⟨hfdb, mem_keys_of_mem_grouper hsplit hfk⟩, rfl⟩
    · rintro ⟨f, ⟨hfdb, hfk⟩, rfl⟩
      obtain ⟨split, hs, hk⟩ := mem_grouper_of_mem_keys hfk (hne _ hfk)
      exact ⟨f, ⟨split, hs, hfdb, hk⟩, rfl⟩

/-- C2 (witness): the amended chunking statement at a concrete two-hash query
against a one-fingerprint store. -/
theorem C2_witness :
    (∀ k ∈ mapperKeys [("a1b2", 40), ("c3d4", 2)], k ≠ "")
    ∧ ((mapperKeys [("a1b2", 40), ("c3d4", 2)]).Nodup
      ∧ (∀ c ∈ grouper (mapperKeys [("a1b2", 40), ("c3d4", 2)]), c.length ≤ 999)
      ∧ (∀ c ∈ (grouper (mapperKeys [("a1b2", 40), ("c3d4", 2)])).dropLast, c.length = 999)
      ∧ (grouper (mapperKeys [("a1b2", 40), ("c3d4", 2)])).flatten
          = mapperKeys [("a1b2", 40), ("c3d4", 2)]
      ∧ (grouper (mapperKeys [("a1b2", 40), ("c3d4", 2)])).length
          = ((mapperKeys [("a1b2", 40), ("c3d4", 2)]).length + 998) / 999
      ∧ (∀ x, x ∈ matchOffsets [⟨"A1B2", 7, 100⟩] [("a1b2", 40), ("c3d4", 2)]
          ↔ x ∈ matchOffsetsUnchunked [⟨"A1B2", 7, 100⟩] [("a1b2", 40), ("c3d4", 2)])) :=
  ⟨by decide, C2_chunking [⟨"A1B2", 7, 100⟩] [("a1b2", 40), ("c3d4", 2)] (by decide)⟩

/-! Claim C3: idempotent song registration. -/

/-- C3: registration is idempotent in the ORM driver — a second
`insert_song` with the same name returns the same identifier, leaves the
state unchanged, and the number of rows carrying the name ends up at
`max (previous count) 1` (so exactly one when starting from none) — while in
the Core driver `insert_song` performs no existence check at all and its
INSERT omits the required non-null `file_sha1` column, so every call fails
with a constraint violation instead of returning the existing identifier. -/
theorem C3_insert_song_idempotent :
    (∀ (db : DB) (name sha : String),
      (sqla_insert_song (sqla_insert_song db name sha).2 name sha).1
          = (sqla_insert_song db name sha).1
      ∧ (sqla_insert_song (sqla_insert_song db name sha).2 name sha).2
          = (sqla_insert_song db name sha).2
      ∧ (sqla_insert_song db name sha).2.songs.countP (fun s => decide (s.name = name))
          = max (db.songs.countP (fun s => decide (s.name = name))) 1)
    ∧ (∀ (db : DB) (name : String),
      sqlac_insert_song db name = .error .constraintViolation) := by
  constructor
  · intro db name sha
    rcases h : db.songs.find? (fun s => decide (s.name = name)) with _ | s
    · have hzero : db.songs.countP (fun s => decide (s.name = name)) = 0 :=
        List.countP_eq_zero.mpr (List.find?_eq_none.mp h)
      have hfind2 : (db.songs ++ [⟨db.next_id, name, false, sha⟩] : List Song).find?
          (fun s => decide (s.name = name)) = some ⟨db.next_id, name, false, sha⟩ := by
        rw [List.find?_append, h]
        simp
      simp only [sqla_insert_song, h, hfind2]
      refine ⟨trivial, trivial, ?_⟩
      rw [List.countP_append, hzero]
      simp
    · have hs : s ∈ db.songs := List.mem_of_find?_eq_some h
      have hname : s.name = name := by simpa using List.find?_some h
      have hpos : 0 < db.songs.countP (fun s => decide (s.name = name)) :=
        List.countP_pos_iff.mpr ⟨s, hs, by simpa using hname⟩
      simp only [sqla_insert_song, h]
      exact ⟨trivial, trivial, by omega⟩
  · intro db name
    rfl

/-! Claim C4: marking a missing song as fingerprinted. -/

/-- C4 (counterexample to the claim as stated): in the Core driver, marking a
song id that does not exist is a silent no-op — the UPDATE affects zero rows
and the call reports success with the state unchanged, not an error. -/
theorem C4_counterexample :
    sqlac_set_song_fingerprinted ⟨[], [], 1⟩ 1 = .ok ⟨[], [], 1⟩
    ∧ ¬ ∃ e, sqlac_set_song_fingerprinted ⟨[], [], 1⟩ 1 = .error e := by
  constructor
  · rfl
  · rintro ⟨e, he⟩
    rw [show sqlac_set_song_fingerprinted ⟨[], [], 1⟩ 1 = .ok ⟨[], [], 1⟩ from rfl] at he
    exact Except.noConfusion he

/-- C4 (amended): for a missing identifier the ORM driver raises an error
(an `AttributeError` from assigning through `None`, not a clean NotFound
kind), and exactly when the identifier is missing; the Core driver instead
always reports success, updating the matching row if one exists and silently
changing nothing otherwise.  For an existing identifier both drivers set the
`fingerprinted` flag of that row to true. -/
theorem C4_mark_fingerprinted :
    (∀ (db : DB) (sid : Int),
      sqla_set_song_fingerprinted db sid = .error .attributeError
        ↔ ∀ s ∈ db.songs, s.id ≠ sid)
    ∧ (∀ (db : DB) (sid : Int),
      sqla_set_song_fingerprinted db sid = .error .attributeError
        ∨ sqla_set_song_fingerprinted db sid = .ok (flagUpdate db sid))
    ∧ (∀ (db : DB) (sid : Int),
      sqlac_set_song_fingerprinted db sid = .ok (flagUpdate db sid))
    ∧ sqla_set_song_fingerprinted ⟨[⟨1, "s", false, "d0"⟩], [], 2⟩ 1
        = .ok ⟨[⟨1, "s", true, "d0"⟩], [], 2⟩
    ∧ sqlac_set_song_fingerprinted ⟨[⟨1, "s", false, "d0"⟩], [], 2⟩ 1
        = .ok ⟨[⟨1, "s", true, "d0"⟩], [], 2⟩ := by
  refine ⟨?_, ?_, ?_, by rfl, by rfl⟩
  · intro db sid
    rcases h : db.songs.find? (fun s => decide (s.id = sid)) with _ | s
    · simp only [sqla_set_song_fingerprinted, h, true_iff]
      simpa using List.find?_eq_none.mp h
    · simp only [sqla_set_song_fingerprinted, h]
      constructor
      · intro hcon
        exact absurd hcon (by simp)
      · intro hall
        have hsid : s.id = sid := by simpa using List.find?_some h
        exact absurd hsid (hall s (List.mem_of_find?_eq_some h))
  · intro db sid
    rcases h : db.songs.find? (fun s => decide (s.id = sid)) with _ | s
    · exact Or.inl (by simp [sqla_set_song_fingerprinted, h])
    · exact Or.inr (by simp [sqla_set_song_fingerprinted, h])
  · intro db sid
    rfl

/-! Claim C5: lookup of a missing song id. -/

/-- C5: in the ORM driver `get_song_by_id` returns an explicit `None` exactly
when the identifier is absent and the stored record otherwise, but in the
Core driver the same lookup on a missing identifier raises a `TypeError`
(`dict(zip(keys, fetchone()))` with `fetchone()` returning `None`) instead of
returning an absent result. -/
theorem C5_get_song_by_id :
    sqla_get_song_by_id ⟨[⟨1, "s", true, "d0"⟩], [], 2⟩ 1 = some ⟨1, "s", true, "d0"⟩
    ∧ sqla_get_song_by_id ⟨[⟨1, "s", true, "d0"⟩], [], 2⟩ 2 = none
    ∧ (∀ (db : DB) (sid : Int),
      sqla_get_song_by_id db sid = none ↔ ∀ s ∈ db.songs, s.id ≠ sid)
    ∧ sqlac_get_song_by_id ⟨[⟨1, "s", true, "d0"⟩], [], 2⟩ 2 = .error .typeError := by
  refine ⟨by rfl, by rfl, ?_, by rfl⟩
  intro db sid
  unfold sqla_get_song_by_id
  rw [List.find?_eq_none]
  simp

/-! Claim C6: batch insertion is all-or-nothing. -/

/-- C6: in the ORM driver `insert_hashes` adds the whole batch in one session
and commits once, so the call either publishes the state with every pair of
the batch appended or fails with the state unchanged — never a partial batch
with a success report; in the Core driver `insert_hashes` accesses the
nonexistent `__table__` attribute of a Core `Table` and therefore raises
`AttributeError` on every call, before writing anything. -/
theorem C6_insert_hashes_atomic :
    (∀ (db : DB) (sid : Int) (pairs : List (String × Int)),
      sqla_insert_hashes db sid pairs
          = .ok ⟨db.songs, db.fingerprints ++ pairs.map (fun p => ⟨normHash p.1, sid, p.2⟩),
              db.next_id⟩
        ∨ sqla_insert_hashes db sid pairs = .error .constraintViolation)
    ∧ (∀ (db : DB) (sid : Int) (pairs : List (String × Int)),
      sqlac_insert_hashes db sid pairs = .error .attributeError) := by
  constructor
  · intro db sid pairs
    unfold sqla_insert_hashes
    by_cases h : (triplesUnique (db.fingerprints ++ pairs.map (fun p => ⟨normHash p.1, sid, p.2⟩))
        && fkHolds ⟨db.songs, db.fingerprints ++ pairs.map (fun p => ⟨normHash p.1, sid, p.2⟩),
          db.next_id⟩) = true
    · exact Or.inl (by simp [h])
    · exact Or.inr (by simp [h])
  · intro db sid pairs
    rfl

/-! Claim C7: uniqueness of the (hash, song_id, offset) triple. -/

/-- C7: the (hash, song_id, offset) triple is unique on every write in both
drivers: the Core driver declares the UNIQUE constraint inside its
`Table(...)` call, and the ORM driver's class-body primary-key/uniqueness
constraints attach to the table through the class's columns, so in either
driver inserting a triple already present in storage (hashes compared on the
binary column, i.e. up to hexadecimal letter case) fails with a constraint
violation. -/
theorem C7_triple_uniqueness :
    (∀ (db : DB) (hx : String) (sid offset : Int),
      (⟨normHash hx, sid, offset⟩ : Fingerprint) ∈ db.fingerprints →
      sqla_insert db hx sid offset = .error .constraintViolation)
    ∧ (∀ (db : DB) (hx : String) (sid offset : Int),
      (⟨normHash hx, sid, offset⟩ : Fingerprint) ∈ db.fingerprints →
      sqlac_insert db hx sid offset = .error .constraintViolation) := by
  constructor
  · intro db hx sid offset hmem
    unfold sqla_insert
    have hdup : db.fingerprints.any
        (fun g => decide (g = ⟨normHash hx, sid, offset⟩)) = true :=
      List.any_eq_true.mpr ⟨_, hmem, by simp⟩
    simp [hdup]
  · intro db hx sid offset hmem
    unfold sqlac_insert
    have hdup : db.fingerprints.any
        (fun g => decide (g = ⟨normHash hx, sid, offset⟩)) = true :=
      List.any_eq_true.mpr ⟨_, hmem, by simp⟩
    simp [hdup]

/-- C7 (witness): a store already holding the triple (A1B2, 1, 0): re-inserting
it through the ORM driver, and inserting its lowercase spelling through the
Core driver, both fail with the constraint violation. -/
theorem C7_witness :
    (⟨normHash "A1B2", 1, 0⟩ : Fingerprint)
        ∈ (⟨[⟨1, "s", true, "d0"⟩], [⟨"A1B2", 1, 0⟩], 2⟩ : DB).fingerprints
    ∧ (⟨normHash "a1b2", 1, 0⟩ : Fingerprint)
        ∈ (⟨[⟨1, "s", true, "d0"⟩], [⟨"A1B2", 1, 0⟩], 2⟩ : DB).fingerprints
    ∧ sqla_insert ⟨[⟨1, "s", true, "d0"⟩], [⟨"A1B2", 1, 0⟩], 2⟩ "A1B2" 1 0
        = .error .constraintViolation
    ∧ sqlac_insert ⟨[⟨1, "s", true, "d0"⟩], [⟨"A1B2", 1, 0⟩], 2⟩ "a1b2" 1 0
        = .error .constraintViolation :=
  ⟨by decide, by decide,
    C7_triple_uniqueness.1 ⟨[⟨1, "s", true, "d0"⟩], [⟨"A1B2", 1, 0⟩], 2⟩ "A1B2" 1 0 (by decide),
    C7_triple_uniqueness.2 ⟨[⟨1, "s", true, "d0"⟩], [⟨"A1B2", 1, 0⟩], 2⟩ "a1b2" 1 0 (by decide)⟩

/-! Claim C8: purge of abandoned songs. -/

/-- C8: in the Core driver the purge deletes exactly the songs whose
`fingerprinted` flag is false and, by cascade, exactly the fingerprints
referencing a deleted song, leaving complete songs and their fingerprints
untouched; in the ORM driver the DELETE is issued but the session is closed
without a commit, so the rollback leaves the whole state unchanged — shown
in particular on the spec's own example (a pending song with three
fingerprints alongside a complete song). -/
theorem C8_purge_abandoned :
    (∀ db : DB, sqla_delete_unfingerprinted_songs db = db)
    ∧ (∀ (db : DB) (s : Song),
      s ∈ (sqlac_delete_unfingerprinted_songs db).songs
        ↔ s ∈ db.songs ∧ s.fingerprinted = true)
    ∧ (∀ (db : DB) (f : Fingerprint),
      f ∈ (sqlac_delete_unfingerprinted_songs db).fingerprints
        ↔ f ∈ db.fingerprints
          ∧ ¬ ∃ s, s ∈ db.songs ∧ s.id = f.song_id ∧ s.fingerprinted = false)
    ∧ sqla_delete_unfingerprinted_songs
        ⟨[⟨1, "a", false, "d0"⟩, ⟨2, "b", true, "d1"⟩],
          [⟨"AA11", 1, 0⟩, ⟨"BB22", 1, 3⟩, ⟨"CC33", 1, 7⟩], 3⟩
        = ⟨[⟨1, "a", false, "d0"⟩, ⟨2, "b", true, "d1"⟩],
          [⟨"AA11", 1, 0⟩, ⟨"BB22", 1, 3⟩, ⟨"CC33", 1, 7⟩], 3⟩
    ∧ sqlac_delete_unfingerprinted_songs
        ⟨[⟨1, "a", false, "d0"⟩, ⟨2, "b", true, "d1"⟩],
          [⟨"AA11", 1, 0⟩, ⟨"BB22", 1, 3⟩, ⟨"CC33", 1, 7⟩], 3⟩
        = ⟨[⟨2, "b", true, "d1"⟩], [], 3⟩ := by
  refine ⟨fun db => rfl, ?_, ?_, by decide, by decide⟩
  · intro db s
    unfold sqlac_delete_unfingerprinted_songs purgePending
    simp [List.mem_filter]
  · intro db f
    unfold sqlac_delete_unfingerprinted_songs purgePending
    simp [List.mem_filter, List.any_eq_true]

/-! Claim C9: setup creates only missing structures. -/

/-- C9: `setup` leaves every stored Song row and every stored Fingerprint row
unchanged in both drivers, and is idempotent: `create_all` only creates
tables that do not yet exist (touching no rows), and the additional
`delete_unfingerprinted_songs()` call made by the ORM driver's `setup` has no
durable effect because its session is closed without a commit. -/
theorem C9_setup_preserves_rows :
    ∀ db : DB,
      sqla_setup db = db
      ∧ sqlac_setup db = db
      ∧ sqla_setup (sqla_setup db) = sqla_setup db
      ∧ sqlac_setup (sqlac_setup db) = sqlac_setup db :=
  fun _ => ⟨rfl, rfl, rfl, rfl⟩

/-! Claim C10: non-negativity of stored offsets. -/

/-- C10 (counterexample to the claim as stated): neither driver nor the
schema constrains offsets, so a single `insert` with a negative offset
succeeds and the fingerprint with the negative offset becomes visible. -/
theorem C10_counterexample :
    sqlac_insert ⟨[⟨1, "s", true, "d0"⟩], [], 2⟩ "A1B2" 1 (-5)
        = .ok ⟨[⟨1, "s", true, "d0"⟩], [⟨"A1B2", 1, -5⟩], 2⟩
    ∧ (⟨"A1B2", 1, -5⟩ : Fingerprint)
        ∈ (⟨[⟨1, "s", true, "d0"⟩], [⟨"A1B2", 1, -5⟩], 2⟩ : DB).fingerprints
    ∧ (-5 : Int) < 0 := by
  refine ⟨by rfl, by decide, by decide⟩

/-- C10 (amended): non-negativity of offsets is only a caller-side
precondition, preserved but not enforced by the store: if every stored
offset is non-negative and the inserted offsets are non-negative, then after
a successful `insert` (either driver) or ORM `insert_hashes` every stored
offset is still non-negative. -/
theorem C10_offset_nonneg_preserved :
    (∀ (db : DB) (hx : String) (sid offset : Int) (db' : DB),
      0 ≤ offset → (∀ f ∈ db.fingerprints, 0 ≤ f.song_offset) →
      sqlac_insert db hx sid offset = .ok db' →
      ∀ f ∈ db'.fingerprints, 0 ≤ f.song_offset)
    ∧ (∀ (db : DB) (hx : String) (sid offset : Int) (db' : DB),
      0 ≤ offset → (∀ f ∈ db.fingerprints, 0 ≤ f.song_offset) →
      sqla_insert db hx sid offset = .ok db' →
      ∀ f ∈ db'.fingerprints, 0 ≤ f.song_offset)
    ∧ (∀ (db : DB) (sid : Int) (pairs : List (String × Int)) (db' : DB),
      (∀ p ∈ pairs, 0 ≤ p.2) → (∀ f ∈ db.fingerprints, 0 ≤ f.song_offset) →
      sqla_insert_hashes db sid pairs = .ok db' →
      ∀ f ∈ db'.fingerprints, 0 ≤ f.song_offset) := by
  refine ⟨?_, ?_, ?_⟩
  · intro db hx sid offset db' hoff hall hok f hf
    simp only [sqlac_insert] at hok
    split at hok
    · exact absurd hok (by simp)
    · split at hok
      · cases hok
        rcases List.mem_append.mp hf with h1 | h2
        · exact hall f h1
        · rw [List.mem_singleton.mp h2]
          exact hoff
      · exact absurd hok (by simp)
  · intro db hx sid offset db' hoff hall hok f hf
    simp only [sqla_insert] at hok
    split at hok
    · exact absurd hok (by simp)
    · split at hok
      · cases hok
        rcases List.mem_append.mp hf with h1 | h2
        · exact hall f h1
        · rw [List.mem_singleton.mp h2]
          exact hoff
      · exact absurd hok (by simp)
  · intro db sid pairs db' hpairs hall hok f hf
    simp only [sqla_insert_hashes] at hok
    split at hok
    · cases hok
      rcases List.mem_append.mp hf with h1 | h2
      · exact hall f h1
      · obtain ⟨p, hp, rfl⟩ := List.mem_map.mp h2
        exact hpairs p hp
    · exact absurd hok (by simp)

/-- C10 (witness): the amended preservation statement applied at a concrete
store with one non-negative fingerprint and one non-negative insert. -/
theorem C10_witness :
    (0 : Int) ≤ 5
    ∧ (∀ f ∈ (⟨[⟨1, "s", true, "d0"⟩], [⟨"FF00", 1, 3⟩], 2⟩ : DB).fingerprints,
        0 ≤ f.song_offset)
    ∧ (∀ f ∈ (⟨[⟨1, "s", true, "d0"⟩], [⟨"FF00", 1, 3⟩, ⟨"A1B2", 1, 5⟩], 2⟩ : DB).fingerprints,
        0 ≤ f.song_offset) :=
  ⟨by decide, by decide,
    C10_offset_nonneg_preserved.1 ⟨[⟨1, "s", true, "d0"⟩], [⟨"FF00", 1, 3⟩], 2⟩ "A1B2" 1 5
      ⟨[⟨1, "s", true, "d0"⟩], [⟨"FF00", 1, 3⟩, ⟨"A1B2", 1, 5⟩], 2⟩
      (by decide) (by decide) (by rfl)⟩

end Dejavu
